import Mathlib

/-!
Verification of the thread-resolution subsystem of a Slack protocol plugin
(`slack-thread.c`).  The C code is shallowly embedded: pure helpers become
Lean functions, the callback and entry points become functions from inputs
to an explicit record of observable effects (system messages written,
deferred operations executed, queries dispatched, frees performed).
External collaborators (libc `strptime`/`mktime`, the per-timestamp color
hash, the transport) are taken as parameters, following the spec's
external-interface contracts.
-/

namespace SlackThread

/-- A character is an ASCII decimal digit (the `str[i] >= '0' && str[i] <= '9'`
test of the C scanner). -/
def isDigitCh (c : Char) : Bool := '0' ≤ c && c ≤ '9'

/-- The scanning loop of `slack_is_slack_ts`, carrying the three booleans
`found_prefix`, `found_dot`, `found_suffix` of the C code.  Digits set
`found_suffix` after a dot and `found_prefix` before; a second dot returns
false immediately; every other character falls through the loop body and is
ignored, exactly as in the source. -/
def tsScan : List Char → Bool → Bool → Bool → Bool
  | [], fp, fd, fs => fp && fd && fs
  | c :: rest, fp, fd, fs =>
    if isDigitCh c then
      if fd then tsScan rest fp fd true
      else tsScan rest true fd fs
    else if c = '.' then
      if fd then false
      else tsScan rest fp true fs
    else tsScan rest fp fd fs

/-- Embedding of `slack_is_slack_ts` (slack-thread.c:25): left-to-right scan
starting with all three flags false. -/
def slack_is_slack_ts (s : String) : Bool :=
  tsScan s.data false false false

/-- The Canonical Thread Timestamp grammar exactly as the spec states it
(spec §3): exactly one decimal point, at least one digit before it, at
least one digit after it, and no other non-digit characters.  This is the
spec-side definition used to compare against the code's classifier. -/
def canonicalTsGrammar (s : String) : Bool :=
  let pre := s.data.takeWhile (· ≠ '.')
  let rest := s.data.dropWhile (· ≠ '.')
  match rest with
  | '.' :: suf =>
    !pre.isEmpty && pre.all isDigitCh && !suf.isEmpty && suf.all isDigitCh
  | _ => false

/-- The classifier's actual acceptance condition: exactly one dot, at least
one digit somewhere before it, at least one digit somewhere after it;
other non-digit characters are ignored rather than rejected. -/
def lenientTsGrammar (s : String) : Bool :=
  decide (s.data.count '.' = 1) &&
  (s.data.takeWhile (· ≠ '.')).any isDigitCh &&
  ((s.data.dropWhile (· ≠ '.')).drop 1).any isDigitCh

theorem isDigitCh_ne_dot {c : Char} (h : isDigitCh c = true) : c ≠ '.' := by
  rintro rfl
  simp [isDigitCh] at h

theorem count_zero_iff_all_ne (l : List Char) :
    (l.all fun x => !decide (x = '.')) = decide (l.count '.' = 0) := by
  induction l with
  | nil => simp
  | cons c rest ih =>
    by_cases h : c = '.' <;> simp [h, List.count_cons, ih]

/-- Invariant of the scan loop once the dot has been seen: success iff no
further dot appears, a digit was seen before the dot, and a digit appears
(or was already seen) after it. -/
theorem tsScan_dot (cs : List Char) (fp fs : Bool) :
    tsScan cs fp true fs = (cs.all (· ≠ '.') && fp && (fs || cs.any isDigitCh)) := by
  induction cs generalizing fs with
  | nil => cases fp <;> cases fs <;> simp [tsScan]
  | cons c rest ih =>
    by_cases hd : isDigitCh c = true
    · have hne : c ≠ '.' := isDigitCh_ne_dot hd
      simp [tsScan, hd, ih, hne]
    · by_cases hdot : c = '.'
      · subst hdot
        simp [tsScan, hd]
      · simp [tsScan, hd, hdot, ih]

/-- Invariant of the scan loop before any dot has been seen: success iff the
remaining input holds exactly one dot, a digit occurs before it (or was
already seen), and a digit occurs after it (or was already seen). -/
theorem tsScan_nodot (cs : List Char) (fp fs : Bool) :
    tsScan cs fp false fs =
      (decide (cs.count '.' = 1) && (fp || (cs.takeWhile (· ≠ '.')).any isDigitCh)
        && (fs || ((cs.dropWhile (· ≠ '.')).drop 1).any isDigitCh)) := by
  induction cs generalizing fp with
  | nil => simp [tsScan]
  | cons c rest ih =>
    by_cases hdot : c = '.'
    · subst hdot
      have hd : isDigitCh '.' = false := by decide
      have hcount : rest.count '.' + 1 = 1 ↔ rest.count '.' = 0 := by omega
      simp [tsScan, hd, tsScan_dot, List.count_cons, hcount, count_zero_iff_all_ne]
    · by_cases hd : isDigitCh c = true
      · simp [tsScan, hd, ih, hdot, List.count_cons]
      · simp [tsScan, hd, hdot, ih, List.count_cons]

/-- The classifier accepts exactly the lenient grammar: exactly one dot,
some digit before it, some digit after it, all other characters ignored. -/
theorem slack_is_slack_ts_eq_lenient (s : String) :
    slack_is_slack_ts s = lenientTsGrammar s := by
  rw [slack_is_slack_ts, tsScan_nodot, lenientTsGrammar]
  simp

/-- One entry of the `messages` array of a history response, reduced to the
two properties the handler reads via `json_get_prop_strptr`: `ts` and
`text`, each possibly absent. -/
structure Entry where
  ts : Option String
  text : Option String
deriving DecidableEq

/-- The callback's input: the `messages` property when present as an array
(`json_get_prop_type(json, "messages", array)` returns NULL otherwise,
modelled as `none`), and the transport error string. -/
structure Response where
  messages : Option (List Entry)
  error : Option String
deriving DecidableEq

/-- `enum ThreadOp` of slack-thread.c:14. -/
inductive ThreadOpKind where
  | post
  | getReplies
deriving DecidableEq

/-- `struct thread_op` (slack-thread.c:19): the deferred operation and its
owned message payload (`msg` is NULL for get-replies operations).  The
conversation handle is kept implicit: every effect below targets the
operation's single conversation. -/
structure ThreadOp where
  kind : ThreadOpKind
  msg : Option String
deriving DecidableEq

/-- Observable effects of one run of `slack_thread_cb`: system messages
written to the conversation, invocations of the deferred post
(`slack_thread_post(sa, conv, ts, op->msg)`), invocations of the deferred
fetch (`slack_get_thread_replies(sa, conv, ts)`), and the number of times
`thread_op_free` was called on the operation. -/
structure CbResult where
  written : List String
  postCalls : List (String × Option String)
  fetchCalls : List String
  freed : Nat
deriving DecidableEq

def notFoundMsg : String :=
  "Thread not found. If the thread start date is not today, make sure you specify the date in the thread timestamp."

def ambiguousHeader : String :=
  "Thread timestamp is ambiguous. Please use one of the following unambiguous thread IDs:\n"

def couldNotParseMsg : String := "Could not parse thread timestamp."

/-- The string appended to the ambiguity message for one candidate whose
`ts` is present (slack-thread.c:148-154): the timestamp wrapped in a
font-color tag built from `slack_get_thread_color` (the external color
collaborator, passed as `color`), then the full `text` or `"NULL"`. -/
def entryStr (color : String → String) (ts : String) (text : Option String) : String :=
  "<font color=\"#" ++ color ts ++ "\">" ++ ts ++ "</font> (\"" ++ text.getD "NULL" ++ "\")\n"

/-- The candidate-listing loop of the ambiguous branch (slack-thread.c:142):
entries whose `ts` property is absent are skipped; the accumulator plays
the role of the GString `errmsg`. -/
def appendEntries (color : String → String) : List Entry → String → String
  | [], acc => acc
  | ⟨none, _⟩ :: rest, acc => appendEntries color rest acc
  | ⟨some ts, text⟩ :: rest, acc => appendEntries color rest (acc ++ entryStr color ts text)

/-- Embedding of `slack_thread_cb` (slack-thread.c:123).  `none` as result
models the undefined behaviour of dereferencing the NULL `list` pointer in
`list->u.array.length` when the response has no `messages` array: the C
code checks `!list` only to log, then dereferences unconditionally.  Note
that `error` never affects control flow in the source. -/
def slack_thread_cb (color : String → String) (op : Option ThreadOp)
    (resp : Response) : Option CbResult :=
  match op with
  | none => some ⟨[], [], [], 0⟩
  | some o =>
    match resp.messages with
    | none => none
    | some l =>
      if l.length = 0 then
        some ⟨[notFoundMsg], [], [], 1⟩
      else if 1 < l.length then
        some ⟨[appendEntries color l ambiguousHeader], [], [], 1⟩
      else
        match l.head? with
        | none => none
        | some entry =>
          match entry.ts with
          | none => some ⟨[], [], [], 1⟩
          | some ts =>
            match o.kind with
            | ThreadOpKind.post => some ⟨[], [(ts, o.msg)], [], 1⟩
            | ThreadOpKind.getReplies => some ⟨[], [], [ts], 1⟩

/-- Conversation object kind, as discriminated by `SLACK_IS_CHANNEL` /
`SLACK_IS_USER` in `slack_thread_send_message`. -/
inductive ConvKind where
  | channel
  | user
  | other
deriving DecidableEq

/-- A conversation object, reduced to what the post path touches: its kind
and its `thread_ts` field (the thread-context used to tag outgoing
messages; NULL modelled as `none`). -/
structure Conv where
  kind : ConvKind
  thread_ts : Option String
deriving DecidableEq

/-- Embedding of `slack_thread_send_message` (slack-thread.c:92): channels
and users get the message sent (tagged with the conversation's current
`thread_ts`) and status 1; anything else sends nothing and returns
`-ENOENT` (= -2). -/
def slack_thread_send_message (conv : Conv) (msg : String) :
    Int × List (Option String × String) :=
  match conv.kind with
  | ConvKind.channel => (1, [(conv.thread_ts, msg)])
  | ConvKind.user => (1, [(conv.thread_ts, msg)])
  | ConvKind.other => (-2, [])

/-- Result of `slack_thread_post`: the conversation's final state, the
messages sent (paired with the `thread_ts` in effect at send time), and
how many send errors were logged. -/
structure PostResult where
  conv : Conv
  sent : List (Option String × String)
  loggedErrors : Nat
deriving DecidableEq

/-- Embedding of `slack_thread_post` (slack-thread.c:105): a NULL message
returns immediately; otherwise the old `thread_ts` is saved, replaced by
`ts` for the send, and restored afterwards whatever the send status. -/
def slack_thread_post (conv : Conv) (ts : String) (msg : Option String) : PostResult :=
  match msg with
  | none => ⟨conv, [], 0⟩
  | some m =>
    let old := conv.thread_ts
    let conv1 : Conv := { conv with thread_ts := some ts }
    let r := slack_thread_send_message conv1 m
    let logged : Nat := if r.1 < 0 then 1 else 0
    ⟨{ conv1 with thread_ts := old }, r.2, logged⟩

/-- One `conversations.history` query as dispatched by
`slack_api_get` (slack-thread.c:194). -/
structure Query where
  channel : String
  oldest : String
  latest : String
deriving DecidableEq

/-- Embedding of `slack_thread_call_operation` (slack-thread.c:187): the
`g_string_printf(oldest, "%ld.000000", ts)` formatting is the decimal
rendering of the instant followed by the literal suffix, and exactly one
query is dispatched, scoped to the conversation's identifier. -/
def slack_thread_call_operation (convId : String) (ts : Int) : List Query :=
  [⟨convId, toString ts ++ ".000000", toString ts ++ ".999999"⟩]

/-- Embedding of `slack_get_ts_from_time_str` (slack-thread.c:47).  The two
libc `strptime`+`mktime` attempts are external collaborators, modelled as
functions from the input string to (number of characters consumed, or
`none` for a NULL return; the `mktime` instant of the filled-in `tm`).
`attX` is the time-only pattern `"%X"`, `attxX` the date-and-time pattern
`"%x-%X"`.  The pointer test `result == time_str + strlen(time_str)` is
consumption of the whole string. -/
def slack_get_ts_from_time_str (attX attxX : String → Option Nat × Int)
    (s : String) : Int :=
  let r1 := attX s
  if r1.1 = some s.length then r1.2
  else
    let r2 := attxX s
    if r2.1 = some s.length then r2.2
    else 0

/-- Observable effects of the two public entry points: system messages
written, direct `slack_thread_post` invocations (canonical-timestamp
path), direct `slack_get_thread_replies` invocations, Thread Operations
created, and history queries dispatched. -/
structure EntryResult where
  written : List String
  directPosts : List (String × Option String)
  directFetches : List String
  opsCreated : List ThreadOp
  queries : List Query
deriving DecidableEq

/-- Embedding of `slack_thread_post_to_timestamp` (slack-thread.c:200). -/
def slack_thread_post_to_timestamp (attX attxX : String → Option Nat × Int)
    (convId : String) (timestr : String) (msg : Option String) : EntryResult :=
  if slack_is_slack_ts timestr then
    ⟨[], [(timestr, msg)], [], [], []⟩
  else
    let ts := slack_get_ts_from_time_str attX attxX timestr
    if ts = 0 then
      ⟨[couldNotParseMsg], [], [], [], []⟩
    else
      ⟨[], [], [], [⟨ThreadOpKind.post, msg⟩], slack_thread_call_operation convId ts⟩

/-- Embedding of `slack_thread_get_replies` (slack-thread.c:215). -/
def slack_thread_get_replies (attX attxX : String → Option Nat × Int)
    (convId : String) (timestr : String) : EntryResult :=
  if slack_is_slack_ts timestr then
    ⟨[], [], [timestr], [], []⟩
  else
    let ts := slack_get_ts_from_time_str attX attxX timestr
    if ts = 0 then
      ⟨[couldNotParseMsg], [], [], [], []⟩
    else
      ⟨[], [], [], [⟨ThreadOpKind.getReplies, none⟩], slack_thread_call_operation convId ts⟩

/-- The first line of a string: everything up to the first newline.  Used
only to state the spec's "first line of its text" reading of the
ambiguity listing. -/
def firstLine (s : String) : String :=
  ⟨s.data.takeWhile (· ≠ '\n')⟩

/-- The per-candidate string the claim describes for the ambiguity
listing: the font-tagged timestamp followed by the FIRST LINE of the text
(or `"NULL"`), newline-terminated. -/
def claimEntryStr (color : String → String) (ts : String) (text : Option String) : String :=
  "<font color=\"#" ++ color ts ++ "\">" ++ ts ++ "</font> (\"" ++
    firstLine (text.getD "NULL") ++ "\")\n"

/-- `needle` starts the list `hay`. -/
def leadsWith : List Char → List Char → Bool
  | [], _ => true
  | _ :: _, [] => false
  | a :: as, b :: bs => a = b && leadsWith as bs

/-- `needle` occurs contiguously somewhere in `hay`. -/
def occursIn : List Char → List Char → Bool
  | needle, [] => needle.isEmpty
  | needle, c :: rest => leadsWith needle (c :: rest) || occursIn needle rest

/-- `needle` occurs as a contiguous substring of `hay`. -/
def containsStr (hay needle : String) : Bool :=
  occursIn needle.data hay.data

/-- The candidate loop only ever appends to its accumulator. -/
theorem appendEntries_acc (color : String → String) (l : List Entry) (acc : String) :
    appendEntries color l acc = acc ++ appendEntries color l "" := by
  induction l generalizing acc with
  | nil => simp [appendEntries]
  | cons e rest ih =>
    obtain ⟨ts, text⟩ := e
    cases ts with
    | none => simp only [appendEntries]; exact ih acc
    | some t =>
      simp only [appendEntries]
      rw [ih (acc ++ entryStr color t text), ih ("" ++ entryStr color t text)]
      simp [String.append_assoc]

/-- Every entry of the list whose `ts` is present contributes its candidate
line contiguously to the built message. -/
theorem appendEntries_mem (color : String → String) (l : List Entry) (acc : String)
    (e : Entry) (he : e ∈ l) (t : String) (ht : e.ts = some t) :
    ∃ p q, appendEntries color l acc = p ++ (entryStr color t e.text ++ q) := by
  induction l generalizing acc with
  | nil => cases he
  | cons x rest ih =>
    rcases List.mem_cons.mp he with rfl | hmem
    · obtain ⟨ts, text⟩ := e
      cases ht
      simp only [appendEntries]
      refine ⟨acc, appendEntries color rest "", ?_⟩
      rw [appendEntries_acc, String.append_assoc]
    · obtain ⟨ts, text⟩ := x
      cases ts with
      | none => simp only [appendEntries]; exact ih _ hmem
      | some t2 => simp only [appendEntries]; exact ih _ hmem

/-- Entries whose `ts` is absent contribute nothing: the built message is
the one built from the sublist of ts-carrying entries. -/
theorem appendEntries_filter (color : String → String) (l : List Entry) (acc : String) :
    appendEntries color l acc =
      appendEntries color (l.filter fun e => e.ts.isSome) acc := by
  induction l generalizing acc with
  | nil => rfl
  | cons e rest ih =>
    obtain ⟨ts, text⟩ := e
    cases ts with
    | none => simp only [List.filter_cons, appendEntries]; exact ih acc
    | some t =>
      simp only [List.filter_cons, Option.isSome_some, if_pos, appendEntries]
      exact ih _

/-- C1 counterexample: the classifier accepts `"a1.2"` although it holds a
character that is neither a digit nor the dot, so it does not decide the
Canonical Thread Timestamp grammar. -/
theorem c1_classifier_counterexample :
    slack_is_slack_ts "a1.2" = true ∧ canonicalTsGrammar "a1.2" = false := by
  decide

/-- C1 (amended): the classifier returns true iff the input holds exactly
one decimal point, at least one digit somewhere before it and at least one
digit somewhere after it; characters that are neither digits nor dots are
ignored rather than rejected. -/
theorem c1_classifier_eq_lenient_grammar (s : String) :
    slack_is_slack_ts s = lenientTsGrammar s := by
  rw [slack_is_slack_ts, tsScan_nodot, lenientTsGrammar]
  simp

/-- C2: when the response carries no `messages` array (as after a transport
error, where no JSON payload exists), the handler dereferences the NULL
list pointer (`list->u.array.length`) instead of reporting "Thread not
found": the embedding yields the crash marker `none`, so neither the
system message nor the free happens. -/
theorem c2_null_messages_crash (color : String → String) (o : ThreadOp)
    (err : Option String) :
    slack_thread_cb color (some o) ⟨none, err⟩ = none := by
  rfl

/-- C10: posting with a NULL message payload is a complete no-op: the
conversation (including its thread-context) is returned unchanged, nothing
is sent, and nothing is logged. -/
theorem c10_null_msg_noop (conv : Conv) (ts : String) :
    slack_thread_post conv ts none = ⟨conv, [], 0⟩ := by
  rfl

/-- Concrete color collaborator and ambiguous response (the spec's own
two-candidate scenario, with a two-line text for the first candidate) used
for the C3 analysis. -/
def c3Color : String → String := fun _ => "c0ffee"

def c3Resp : Response :=
  ⟨some [⟨some "1.000001", some "hi\nthere"⟩, ⟨some "1.000002", none⟩], none⟩

set_option maxRecDepth 8000 in
/-- C3 counterexample: the ambiguous listing appends each candidate's FULL
text, not its first line.  With a two-line text "hi\nthere", the written
message carries the whole text, and the line the claim describes (tagged
timestamp followed by the first line "hi", newline-terminated) occurs
nowhere in it, so the claim fails at this input. -/
theorem c3_first_line_counterexample :
    slack_thread_cb c3Color (some ⟨ThreadOpKind.post, some "m"⟩) c3Resp =
      some ⟨["Thread timestamp is ambiguous. Please use one of the following unambiguous thread IDs:\n<font color=\"#c0ffee\">1.000001</font> (\"hi\nthere\")\n<font color=\"#c0ffee\">1.000002</font> (\"NULL\")\n"],
        [], [], 1⟩ ∧
    containsStr
      "Thread timestamp is ambiguous. Please use one of the following unambiguous thread IDs:\n<font color=\"#c0ffee\">1.000001</font> (\"hi\nthere\")\n<font color=\"#c0ffee\">1.000002</font> (\"NULL\")\n"
      (claimEntryStr c3Color "1.000001" (some "hi\nthere")) = false := by
  constructor
  · rfl
  · rfl

/-- C3 (amended): with more than one match the handler writes one system
message that starts with the explanatory header and, for every entry whose
`ts` is present, contains the font-tagged timestamp followed by the
entry's FULL text (or "NULL" when absent), newline-terminated; the
deferred operation is not executed and the operation is freed. -/
theorem c3_ambiguous_listing (color : String → String) (o : ThreadOp)
    (l : List Entry) (err : Option String) (h : 1 < l.length) :
    slack_thread_cb color (some o) ⟨some l, err⟩ =
      some ⟨[appendEntries color l ambiguousHeader], [], [], 1⟩ ∧
    appendEntries color l ambiguousHeader =
      ambiguousHeader ++ appendEntries color l "" ∧
    ∀ e ∈ l, ∀ t, e.ts = some t →
      ∃ p q, appendEntries color l ambiguousHeader =
        p ++ (entryStr color t e.text ++ q) := by
  have h0 : ¬ l.length = 0 := by omega
  refine ⟨?_, appendEntries_acc color l ambiguousHeader, ?_⟩
  · simp [slack_thread_cb, h0, h]
  · intro e he t ht
    exact appendEntries_mem color l ambiguousHeader e he t ht

theorem c3_ambiguous_listing_witness :
    slack_thread_cb c3Color (some ⟨ThreadOpKind.getReplies, none⟩) c3Resp =
      some ⟨[appendEntries c3Color
        [⟨some "1.000001", some "hi\nthere"⟩, ⟨some "1.000002", none⟩]
        ambiguousHeader], [], [], 1⟩ :=
  (c3_ambiguous_listing c3Color ⟨ThreadOpKind.getReplies, none⟩
    [⟨some "1.000001", some "hi\nthere"⟩, ⟨some "1.000002", none⟩] none
    (by decide)).1

/-- C4: whenever the handler runs with a non-null operation and the
response's `messages` array is present (the four exit paths the claim
lists: not-found, ambiguous, missing-ts, single match), it returns
normally and `thread_op_free` runs on the operation exactly once. -/
theorem c4_callback_frees_once (color : String → String) (o : ThreadOp)
    (l : List Entry) (err : Option String) :
    ∃ r, slack_thread_cb color (some o) ⟨some l, err⟩ = some r ∧ r.freed = 1 := by
  obtain ⟨k, msg⟩ := o
  match l with
  | [] => exact ⟨⟨[notFoundMsg], [], [], 1⟩, rfl, rfl⟩
  | [e] =>
    obtain ⟨ts, text⟩ := e
    cases ts with
    | none => exact ⟨⟨[], [], [], 1⟩, rfl, rfl⟩
    | some t =>
      cases k with
      | post => exact ⟨⟨[], [(t, msg)], [], 1⟩, rfl, rfl⟩
      | getReplies => exact ⟨⟨[], [], [t], 1⟩, rfl, rfl⟩
  | a :: b :: rest =>
    refine ⟨⟨[appendEntries color (a :: b :: rest) ambiguousHeader], [], [], 1⟩, ?_, rfl⟩
    have h0 : ¬ (a :: b :: rest).length = 0 := by simp
    have h1 : 1 < (a :: b :: rest).length := by
      simp only [List.length_cons]
      omega
    simp [slack_thread_cb, h0, h1]

/-- C5: a post with a non-null message leaves the conversation (and in
particular its thread-context) exactly as it was before the call, whatever
the send outcome, and every message actually sent goes out while the
thread-context equals the resolved timestamp. -/
theorem c5_thread_ts_restored (conv : Conv) (t : String) (m : String) :
    (slack_thread_post conv t (some m)).conv = conv ∧
    ∀ p ∈ (slack_thread_post conv t (some m)).sent, p.1 = some t := by
  obtain ⟨k, old⟩ := conv
  cases k <;> exact ⟨rfl, by simp [slack_thread_post, slack_thread_send_message]⟩

theorem c5_thread_ts_restored_witness :
    (slack_thread_post ⟨ConvKind.channel, none⟩ "12345.678" (some "hello")).conv =
      ⟨ConvKind.channel, none⟩ ∧
    (some "12345.678", "hello").1 = some "12345.678" :=
  ⟨(c5_thread_ts_restored ⟨ConvKind.channel, none⟩ "12345.678" "hello").1,
   (c5_thread_ts_restored ⟨ConvKind.channel, none⟩ "12345.678" "hello").2
     (some "12345.678", "hello") (by decide)⟩

/-- Stand-ins for the two libc parse attempts in the C6 counterexample:
the time-only pattern fails, the date-and-time pattern consumes the whole
input and `mktime` returns the epoch instant 0 (as it does for an input
naming the epoch itself, e.g. "01/01/70-00:00:00" on a UTC host). -/
def epochAttX : String → Option Nat × Int := fun _ => (none, 0)

def epochAttxX : String → Option Nat × Int := fun s => (some s.length, 0)

/-- C6 counterexample: a fully-consuming match whose `mktime` instant is
the epoch makes the resolver return 0, the very sentinel reserved for
failure — so a full-length match does not always yield a non-zero
instant. -/
theorem c6_epoch_counterexample :
    (epochAttxX "01/01/70-00:00:00").1 = some ("01/01/70-00:00:00".length) ∧
    slack_get_ts_from_time_str epochAttX epochAttxX "01/01/70-00:00:00" = 0 :=
  ⟨rfl, rfl⟩

/-- C6 (amended): the resolver tries the time-only pattern first (its
fully-consuming result wins regardless of the second pattern), then the
date-and-time pattern, accepts an attempt only if it consumes the whole
input, returns the mktime instant of the first fully-consuming attempt
(which is non-zero except when that instant is the epoch itself), and
returns the sentinel 0 when neither attempt consumes the full input. -/
theorem c6_resolver_order_and_sentinel (attX attxX : String → Option Nat × Int)
    (s : String) :
    ((attX s).1 = some s.length →
      slack_get_ts_from_time_str attX attxX s = (attX s).2) ∧
    ((attX s).1 ≠ some s.length → (attxX s).1 = some s.length →
      slack_get_ts_from_time_str attX attxX s = (attxX s).2) ∧
    ((attX s).1 ≠ some s.length → (attxX s).1 ≠ some s.length →
      slack_get_ts_from_time_str attX attxX s = 0) := by
  refine ⟨fun h1 => ?_, fun h1 h2 => ?_, fun h1 h2 => ?_⟩
  · simp [slack_get_ts_from_time_str, h1]
  · simp [slack_get_ts_from_time_str, h1, h2]
  · simp [slack_get_ts_from_time_str, h1, h2]

theorem c6_resolver_order_and_sentinel_witness :
    slack_get_ts_from_time_str (fun s => (some s.length, 42)) (fun _ => (none, 0))
      "12:00:00" = ((fun (s : String) => ((some s.length : Option Nat), (42 : Int)))
        "12:00:00").2 :=
  (c6_resolver_order_and_sentinel (fun s => (some s.length, 42)) (fun _ => (none, 0))
    "12:00:00").1 rfl

/-- C7: for a resolved instant the dispatcher issues exactly one history
query, scoped to the conversation's identifier, whose bounds are exactly
the instant's decimal rendering suffixed with ".000000" and ".999999". -/
theorem c7_query_window (convId : String) (ts : Int) :
    (slack_thread_call_operation convId ts).length = 1 ∧
    ∀ q ∈ slack_thread_call_operation convId ts,
      q.channel = convId ∧ q.oldest = toString ts ++ ".000000" ∧
      q.latest = toString ts ++ ".999999" := by
  refine ⟨rfl, ?_⟩
  intro q hq
  simp only [slack_thread_call_operation, List.mem_singleton] at hq
  subst hq
  exact ⟨rfl, rfl, rfl⟩

theorem c7_query_window_witness :
    (slack_thread_call_operation "C42" 5).length = 1 ∧
    (Query.mk "C42" "5.000000" "5.999999").channel = "C42" ∧
    (Query.mk "C42" "5.000000" "5.999999").oldest = toString (5 : Int) ++ ".000000" :=
  ⟨(c7_query_window "C42" 5).1,
   ((c7_query_window "C42" 5).2 ⟨"C42", "5.000000", "5.999999"⟩ (by decide)).1,
   ((c7_query_window "C42" 5).2 ⟨"C42", "5.000000", "5.999999"⟩ (by decide)).2.1⟩

/-- Parse attempts that consume nothing, as real `strptime` does on a
string such as "a1.2" that matches neither the time-only nor the
date-and-time pattern. -/
def failAtt : String → Option Nat × Int := fun _ => (none, 0)

/-- C8 counterexample: "a1.2" is not a Canonical Thread Timestamp and is
not parseable by the Local Time Resolver (both strptime attempts fail on
it), so the claim requires the "Could not parse thread timestamp."
message; but the lenient classifier accepts it, so both entry points take
the canonical branch: no system message is written and the garbage string
is used directly as the thread timestamp of a post / replies fetch. -/
theorem c8_lenient_gate_counterexample :
    canonicalTsGrammar "a1.2" = false ∧
    slack_get_ts_from_time_str failAtt failAtt "a1.2" = 0 ∧
    slack_thread_post_to_timestamp failAtt failAtt "C1" "a1.2" (some "m") =
      ⟨[], [("a1.2", some "m")], [], [], []⟩ ∧
    slack_thread_get_replies failAtt failAtt "C1" "a1.2" =
      ⟨[], [], ["a1.2"], [], []⟩ :=
  ⟨rfl, rfl, rfl, rfl⟩

/-- C8 (amended): when the timestamp argument is rejected by the Timestamp
Classifier (the lenient check of C1, not the canonical grammar) and the
resolver yields the sentinel 0, both public entry points write exactly
"Could not parse thread timestamp." synchronously, create no Thread
Operation and dispatch no query. -/
theorem c8_unparseable_reported (attX attxX : String → Option Nat × Int)
    (convId timestr : String) (msg : Option String)
    (hc : slack_is_slack_ts timestr = false)
    (hr : slack_get_ts_from_time_str attX attxX timestr = 0) :
    slack_thread_post_to_timestamp attX attxX convId timestr msg =
      ⟨[couldNotParseMsg], [], [], [], []⟩ ∧
    slack_thread_get_replies attX attxX convId timestr =
      ⟨[couldNotParseMsg], [], [], [], []⟩ := by
  constructor
  · simp [slack_thread_post_to_timestamp, hc, hr]
  · simp [slack_thread_get_replies, hc, hr]

theorem c8_unparseable_reported_witness :
    slack_thread_post_to_timestamp (fun _ => (none, 0)) (fun _ => (none, 0))
      "C1" "garbage" (some "m") = ⟨[couldNotParseMsg], [], [], [], []⟩ ∧
    slack_thread_get_replies (fun _ => (none, 0)) (fun _ => (none, 0))
      "C1" "garbage" = ⟨[couldNotParseMsg], [], [], [], []⟩ :=
  c8_unparseable_reported (fun _ => (none, 0)) (fun _ => (none, 0))
    "C1" "garbage" (some "m") (by decide) rfl

/-- C9: in the ambiguous branch, entries whose `ts` is absent are silently
skipped: the written message is exactly the one built from the sublist of
ts-carrying entries (so it may list fewer candidates than the response
holds), while the explanatory header is still written first. -/
theorem c9_missing_ts_skipped (color : String → String) (o : ThreadOp)
    (l : List Entry) (err : Option String) (h : 1 < l.length) :
    slack_thread_cb color (some o) ⟨some l, err⟩ =
      some ⟨[appendEntries color (l.filter fun e => e.ts.isSome) ambiguousHeader],
        [], [], 1⟩ ∧
    appendEntries color (l.filter fun e => e.ts.isSome) ambiguousHeader =
      ambiguousHeader ++ appendEntries color (l.filter fun e => e.ts.isSome) "" := by
  have h0 : ¬ l.length = 0 := by omega
  refine ⟨?_, appendEntries_acc color _ ambiguousHeader⟩
  simp [slack_thread_cb, h0, h, ← appendEntries_filter]

theorem c9_missing_ts_skipped_witness :
    slack_thread_cb (fun _ => "00ff00") (some ⟨ThreadOpKind.post, none⟩)
      ⟨some [⟨some "1.1", some "x"⟩, ⟨none, some "y"⟩], none⟩ =
      some ⟨[appendEntries (fun _ => "00ff00")
        ([⟨some "1.1", some "x"⟩, ⟨none, some "y"⟩].filter fun e => e.ts.isSome)
        ambiguousHeader], [], [], 1⟩ :=
  (c9_missing_ts_skipped (fun _ => "00ff00") ⟨ThreadOpKind.post, none⟩
    [⟨some "1.1", some "x"⟩, ⟨none, some "y"⟩] none (by decide)).1

end SlackThread
